import Mathlib

/-!
Verification of the multi-provider agent layer of the LiveChat-IA
repository (src/agents/): the base agent contract, the per-provider
clients (OpenAI, Claude, Gemini, Groq, Ollama), the agent factory and
the agent manager.

Python dict-based configuration records are embedded as structures with
`Option String` fields (`none` = key absent; `some ""` = key present but
empty — both are falsy in Python, which the `truthy` helper captures).
Network interaction is embedded as an explicit environment value
(`NetEnv`) enumerating the outcomes the `try/except` blocks distinguish:
a `requests` ConnectionError, any other RequestException (timeouts,
HTTPError raised by `raise_for_status`), or a reply carrying an HTTP
status and a body that either parsed into the expected shape or failed
(`Except.error` holds the Python exception text). Python floats in the
static rate tables are embedded as exact rationals (ℚ); the decimal
literals involved are exact in both representations for the comparisons
proved here.
-/

/-- Python truthiness of an optional string config entry:
`config.get(k)` is falsy when the key is absent or maps to `""`. -/
def truthy : Option String → Bool
  | none => false
  | some s => !s.isEmpty

/-- An agent configuration record as read from persistence / the UI
(`config: Dict[str, Any]` in `base_agent.py`). Fields the claims depend
on; `default_params` is the open provider-specific mapping. -/
structure AgentConfig where
  name : Option String
  provider : Option String
  model_name : Option String
  api_key : Option String
  api_url : Option String
  max_tokens : Option Nat
  temperature : Option ℚ
  default_params : List (String × String)
deriving DecidableEq

/-- The state a `BaseAgent.__init__` derives from its config
(`base_agent.py`, lines 15–24): each attribute is `config.get(key, default)`. -/
structure Agent where
  config : AgentConfig
  name : String
  provider : String
  model_name : String
  api_key : String
  api_url : String
  max_tokens : Nat
  temperature : ℚ
  default_params : List (String × String)
deriving DecidableEq

/-- `BaseAgent.__init__`: attribute extraction with Python defaults. -/
def mkAgent (cfg : AgentConfig) : Agent where
  config := cfg
  name := cfg.name.getD "Agente Desconocido"
  provider := cfg.provider.getD ""
  model_name := cfg.model_name.getD ""
  api_key := cfg.api_key.getD ""
  api_url := cfg.api_url.getD ""
  max_tokens := cfg.max_tokens.getD 2048
  temperature := cfg.temperature.getD (7/10)
  default_params := cfg.default_params

/-- `BaseAgent.validate_config` (`base_agent.py`, lines 57–74): each of
`name`, `provider`, `model_name` must be truthy in the stored config,
and `self.api_key` must be truthy unless `self.provider == 'ollama'`. -/
def validate_config (ag : Agent) : Bool :=
  truthy ag.config.name &&
  truthy ag.config.provider &&
  truthy ag.config.model_name &&
  (!ag.api_key.isEmpty || ag.provider == "ollama")

/-- The dictionary returned by `BaseAgent.get_info` (`base_agent.py`,
lines 90–103). -/
structure AgentInfo where
  name : String
  provider : String
  model_name : String
  max_tokens : Nat
  temperature : ℚ
  status : String
deriving DecidableEq

/-- `BaseAgent.get_info`: a dictionary of the stored attributes plus a
`status` derived from `validate_config`. -/
def get_info (ag : Agent) : AgentInfo where
  name := ag.name
  provider := ag.provider
  model_name := ag.model_name
  max_tokens := ag.max_tokens
  temperature := ag.temperature
  status := if validate_config ag then "configured" else "error"

/-- A conversation turn: `{role, content}` dictionaries in the optional
`context` argument of `get_response`. -/
structure Turn where
  role : String
  content : String
deriving DecidableEq

/-- Outcome of one `requests` call, as the `except` clauses of the agent
clients distinguish them: a `requests.exceptions.ConnectionError`, any
other `RequestException` (timeout, etc.; `detail` is `str(e)`), or a
reply with an HTTP status. `statusDetail` is the text of the `HTTPError`
that `raise_for_status` raises on a 4xx/5xx status. The body is the
parsed JSON projected to the shape the client reads, or `Except.error`
carrying the exception text when `.json()` or the field accesses raise. -/
inductive NetEnv (β : Type) where
  | connectionError (detail : String)
  | requestError (detail : String)
  | reply (status : Nat) (statusDetail : String) (body : Except String β)

/-- `String.data` distributes over append. -/
theorem data_append (a b : String) : (a ++ b).data = a.data ++ b.data := by
  cases a; cases b; rfl

theorem str_ext {a b : String} (h : a.data = b.data) : a = b := by
  cases a; cases b; cases h; rfl

theorem str_append_assoc (a b c : String) : a ++ b ++ c = a ++ (b ++ c) :=
  str_ext (by rw [data_append, data_append, data_append, data_append,
    List.append_assoc])

/-- The spec's error contract: the returned string starts with `"Error:"`. -/
def startsWithError (s : String) : Prop :=
  "Error:".data <+: s.data

theorem startsWithError_append (s : String) :
    startsWithError ("Error: " ++ s) := by
  refine ⟨" ".data ++ s.data, ?_⟩
  rw [data_append, ← List.append_assoc]
  congr 1

/-- Prompt construction in `OllamaAgent.get_response` (`ollama_agent.py`,
lines 29–37): `"\n".join(...)` is modelled by `joinSep`. -/
def joinSep (sep : String) : List String → String
  | [] => ""
  | [x] => x
  | x :: xs => x ++ sep ++ joinSep sep xs

/-- One turn rendered into the Ollama prompt (`ollama_agent.py`,
lines 33–34): user turns get `"Usuario: "`, every other role
`"Asistente: "`. -/
def ollamaTurnLine (t : Turn) : String :=
  if t.role = "user" then "Usuario: " ++ t.content
  else "Asistente: " ++ t.content

/-- `OllamaAgent.get_response` lines 30–37: `prompt = message` when the
context is falsy, else the joined context followed by the new user
message and a trailing `"Asistente:"` cue. -/
def ollamaBuildPrompt (message : String) (ctx : List Turn) : String :=
  if ctx.isEmpty then message
  else joinSep "\n" (ctx.map ollamaTurnLine) ++
       "\nUsuario: " ++ message ++ "\nAsistente:"

/-- The `options` object of the Ollama payload (`ollama_agent.py`,
lines 44–48), with `default_params` merged in as the open tail. -/
structure OllamaOptions where
  temperature : ℚ
  num_predict : Nat
  extra : List (String × String)
deriving DecidableEq

/-- The JSON payload `OllamaAgent.get_response` POSTs to
`{base}/api/generate` (`ollama_agent.py`, lines 40–49). -/
structure OllamaPayload where
  model : String
  prompt : String
  stream : Bool
  options : OllamaOptions
deriving DecidableEq

def ollamaPayload (ag : Agent) (message : String) (ctx : List Turn) :
    OllamaPayload where
  model := ag.model_name
  prompt := ollamaBuildPrompt message ctx
  stream := false
  options := ⟨ag.temperature, ag.max_tokens, ag.default_params⟩

/-- `OllamaAgent.get_response` (`ollama_agent.py`, lines 22–88). The body
is the optional `response` field of the parsed reply. A distinguished
`ConnectionError` branch returns the not-running remediation message;
other request errors and 4xx/5xx statuses produce the generic connection
error; a reply without a `response` field raises
`Exception("Respuesta inválida de Ollama")`, caught by the generic
handler. -/
def ollama_get_response (_ag : Agent) (_message : String) (_ctx : List Turn)
    (env : NetEnv (Option String)) : String :=
  match env with
  | .connectionError _ =>
      "Error: Ollama no está ejecutándose. Inicia Ollama con \x27ollama serve\x27"
  | .requestError d =>
      "Error: " ++ ("Error de conexión con Ollama: " ++ d)
  | .reply status statusDetail body =>
    if 400 ≤ status ∧ status < 600 then
      "Error: " ++ ("Error de conexión con Ollama: " ++ statusDetail)
    else
      match body with
      | .error e =>
          "Error: " ++ ("Error procesando respuesta de Ollama: " ++ e)
      | .ok none =>
          "Error: " ++ ("Error procesando respuesta de Ollama: " ++
            "Respuesta inválida de Ollama")
      | .ok (some t) => t.trim

/-- `OpenAIAgent.get_response` (`openai_agent.py`, lines 25–82). The body
is the list of `choices[i].message.content` strings when `'choices'` is
present. `ConnectionError` is a `RequestException`, so both map to the
same handler here. -/
def openai_get_response (_ag : Agent) (_message : String) (_ctx : List Turn)
    (env : NetEnv (Option (List String))) : String :=
  match env with
  | .connectionError d | .requestError d =>
      "Error: " ++ ("Error de conexión con OpenAI: " ++ d)
  | .reply status statusDetail body =>
    if 400 ≤ status ∧ status < 600 then
      "Error: " ++ ("Error de conexión con OpenAI: " ++ statusDetail)
    else
      match body with
      | .error e =>
          "Error: " ++ ("Error procesando respuesta de OpenAI: " ++ e)
      | .ok none | .ok (some []) =>
          "Error: " ++ ("Error procesando respuesta de OpenAI: " ++
            "Respuesta inválida de OpenAI")
      | .ok (some (c :: _)) => c.trim

/-- `GroqAgent.get_response` (`groq_agent.py`, lines 26–83): identical
flow to the OpenAI client with Groq wording. -/
def groq_get_response (_ag : Agent) (_message : String) (_ctx : List Turn)
    (env : NetEnv (Option (List String))) : String :=
  match env with
  | .connectionError d | .requestError d =>
      "Error: " ++ ("Error de conexión con Groq: " ++ d)
  | .reply status statusDetail body =>
    if 400 ≤ status ∧ status < 600 then
      "Error: " ++ ("Error de conexión con Groq: " ++ statusDetail)
    else
      match body with
      | .error e =>
          "Error: " ++ ("Error procesando respuesta de Groq: " ++ e)
      | .ok none | .ok (some []) =>
          "Error: " ++ ("Error procesando respuesta de Groq: " ++
            "Respuesta inválida de Groq")
      | .ok (some (c :: _)) => c.trim

/-- Message-list construction in `ClaudeAgent.get_response`
(`claude_agent.py`, lines 33–44): the for-loop forwards user and
assistant turns and drops every other role, then the new user message is
appended. -/
def claudeBuildMessages (message : String) (ctx : List Turn) : List Turn :=
  (ctx.foldl (fun acc t =>
    if t.role = "user" then acc ++ [⟨"user", t.content⟩]
    else if t.role = "assistant" then acc ++ [⟨"assistant", t.content⟩]
    else acc) [])
  ++ [⟨"user", message⟩]

/-- `ClaudeAgent.get_response` (`claude_agent.py`, lines 26–88). The body
is the list of `content[i].text` strings when `'content'` is present. -/
def claude_get_response (_ag : Agent) (_message : String) (_ctx : List Turn)
    (env : NetEnv (Option (List String))) : String :=
  match env with
  | .connectionError d | .requestError d =>
      "Error: " ++ ("Error de conexión con Claude: " ++ d)
  | .reply status statusDetail body =>
    if 400 ≤ status ∧ status < 600 then
      "Error: " ++ ("Error de conexión con Claude: " ++ statusDetail)
    else
      match body with
      | .error e =>
          "Error: " ++ ("Error procesando respuesta de Claude: " ++ e)
      | .ok none | .ok (some []) =>
          "Error: " ++ ("Error procesando respuesta de Claude: " ++
            "Respuesta inválida de Claude")
      | .ok (some (c :: _)) => c.trim

/-- `GeminiAgent.get_response` (`gemini_agent.py`, lines 21–95). The
body is the `candidates` list; each candidate is `none` when it misses
`content`/`parts`, else the list of `parts[i].text`. `parts[0]` on an
empty list raises `IndexError("list index out of range")`, caught by the
generic handler. -/
def gemini_get_response (_ag : Agent) (_message : String) (_ctx : List Turn)
    (env : NetEnv (Option (List (Option (List String))))) : String :=
  match env with
  | .connectionError d | .requestError d =>
      "Error: " ++ ("Error de conexión con Gemini: " ++ d)
  | .reply status statusDetail body =>
    if 400 ≤ status ∧ status < 600 then
      "Error: " ++ ("Error de conexión con Gemini: " ++ statusDetail)
    else
      match body with
      | .error e =>
          "Error: " ++ ("Error procesando respuesta de Gemini: " ++ e)
      | .ok none | .ok (some []) =>
          "Error: " ++ ("Error procesando respuesta de Gemini: " ++
            "Respuesta inválida de Gemini")
      | .ok (some (none :: _)) =>
          "Error: " ++ ("Error procesando respuesta de Gemini: " ++
            "Estructura de respuesta inválida de Gemini")
      | .ok (some (some [] :: _)) =>
          "Error: " ++ ("Error procesando respuesta de Gemini: " ++
            "list index out of range")
      | .ok (some (some (t :: _) :: _)) => t.trim

/-- Classifier for the Ollama reply: the extracted text when the call
fully succeeds (no exception, no 4xx/5xx, parsed body with a `response`
field); `none` marks every failure case. -/
def ollamaExtract (env : NetEnv (Option String)) : Option String :=
  match env with
  | .reply status _ (.ok (some t)) =>
      if 400 ≤ status ∧ status < 600 then none else some t
  | _ => none

/-- Classifier for an OpenAI-shaped reply (shared by the OpenAI, Groq and
Claude clients): the first extracted text of a non-empty list. -/
def chatExtract (env : NetEnv (Option (List String))) : Option String :=
  match env with
  | .reply status _ (.ok (some (c :: _))) =>
      if 400 ≤ status ∧ status < 600 then none else some c
  | _ => none

/-- Classifier for the Gemini reply: the first part text of the first
candidate, when every layer is present and non-empty. -/
def geminiExtract (env : NetEnv (Option (List (Option (List String))))) :
    Option String :=
  match env with
  | .reply status _ (.ok (some (some (t :: _) :: _))) =>
      if 400 ≤ status ∧ status < 600 then none else some t
  | _ => none

/-- The distinguished Ollama connection-refused message starts with
`"Error:"`. -/
theorem startsWithError_ollamaConn :
    startsWithError
      "Error: Ollama no está ejecutándose. Inicia Ollama con \x27ollama serve\x27" := by
  refine ⟨" Ollama no está ejecutándose. Inicia Ollama con \x27ollama serve\x27".data, ?_⟩
  decide

/-- **C1**: for every provider client and every environment outcome
(unreachable host, timeout, HTTP 4xx/5xx, malformed or unexpected JSON),
`get_response` is total — it either returns the extracted reply text
(stripped) on full success, or a string starting with `"Error:"` in
every failure case; no exception crosses its boundary. -/
theorem c1_get_response_error_contract :
    (∀ ag m ctx env, (∃ t, ollamaExtract env = some t ∧
        ollama_get_response ag m ctx env = t.trim) ∨
      startsWithError (ollama_get_response ag m ctx env)) ∧
    (∀ ag m ctx env, (∃ t, chatExtract env = some t ∧
        openai_get_response ag m ctx env = t.trim) ∨
      startsWithError (openai_get_response ag m ctx env)) ∧
    (∀ ag m ctx env, (∃ t, geminiExtract env = some t ∧
        gemini_get_response ag m ctx env = t.trim) ∨
      startsWithError (gemini_get_response ag m ctx env)) ∧
    (∀ ag m ctx env, (∃ t, chatExtract env = some t ∧
        claude_get_response ag m ctx env = t.trim) ∨
      startsWithError (claude_get_response ag m ctx env)) ∧
    (∀ ag m ctx env, (∃ t, chatExtract env = some t ∧
        groq_get_response ag m ctx env = t.trim) ∨
      startsWithError (groq_get_response ag m ctx env)) := by
  refine ⟨?_, ?_, ?_, ?_, ?_⟩
  · intro ag m ctx env
    rcases env with d | d | ⟨s, sd, body⟩
    · exact Or.inr startsWithError_ollamaConn
    · exact Or.inr (startsWithError_append _)
    · by_cases h : 400 ≤ s ∧ s < 600
      · refine Or.inr ?_
        simp only [ollama_get_response]
        rw [if_pos h]
        exact startsWithError_append _
      · rcases body with e | (_ | t)
        · refine Or.inr ?_
          simp only [ollama_get_response]
          rw [if_neg h]
          exact startsWithError_append _
        · refine Or.inr ?_
          simp only [ollama_get_response]
          rw [if_neg h]
          exact startsWithError_append _
        · refine Or.inl ⟨t, ?_, ?_⟩
          · simp only [ollamaExtract]
            rw [if_neg h]
          · simp only [ollama_get_response]
            rw [if_neg h]
  · intro ag m ctx env
    rcases env with d | d | ⟨s, sd, body⟩
    · exact Or.inr (startsWithError_append _)
    · exact Or.inr (startsWithError_append _)
    · by_cases h : 400 ≤ s ∧ s < 600
      · refine Or.inr ?_
        simp only [openai_get_response]
        rw [if_pos h]
        exact startsWithError_append _
      · rcases body with e | (_ | (_ | ⟨c, cs⟩))
        · refine Or.inr ?_
          simp only [openai_get_response]
          rw [if_neg h]
          exact startsWithError_append _
        · refine Or.inr ?_
          simp only [openai_get_response]
          rw [if_neg h]
          exact startsWithError_append _
        · refine Or.inr ?_
          simp only [openai_get_response]
          rw [if_neg h]
          exact startsWithError_append _
        · refine Or.inl ⟨c, ?_, ?_⟩
          · simp only [chatExtract]
            rw [if_neg h]
          · simp only [openai_get_response]
            rw [if_neg h]
  · intro ag m ctx env
    rcases env with d | d | ⟨s, sd, body⟩
    · exact Or.inr (startsWithError_append _)
    · exact Or.inr (startsWithError_append _)
    · by_cases h : 400 ≤ s ∧ s < 600
      · refine Or.inr ?_
        simp only [gemini_get_response]
        rw [if_pos h]
        exact startsWithError_append _
      · rcases body with e | (_ | (_ | ⟨cand, rest⟩))
        · refine Or.inr ?_
          simp only [gemini_get_response]
          rw [if_neg h]
          exact startsWithError_append _
        · refine Or.inr ?_
          simp only [gemini_get_response]
          rw [if_neg h]
          exact startsWithError_append _
        · refine Or.inr ?_
          simp only [gemini_get_response]
          rw [if_neg h]
          exact startsWithError_append _
        · rcases cand with _ | (_ | ⟨t, ts⟩)
          · refine Or.inr ?_
            simp only [gemini_get_response]
            rw [if_neg h]
            exact startsWithError_append _
          · refine Or.inr ?_
            simp only [gemini_get_response]
            rw [if_neg h]
            exact startsWithError_append _
          · refine Or.inl ⟨t, ?_, ?_⟩
            · simp only [geminiExtract]
              rw [if_neg h]
            · simp only [gemini_get_response]
              rw [if_neg h]
  · intro ag m ctx env
    rcases env with d | d | ⟨s, sd, body⟩
    · exact Or.inr (startsWithError_append _)
    · exact Or.inr (startsWithError_append _)
    · by_cases h : 400 ≤ s ∧ s < 600
      · refine Or.inr ?_
        simp only [claude_get_response]
        rw [if_pos h]
        exact startsWithError_append _
      · rcases body with e | (_ | (_ | ⟨c, cs⟩))
        · refine Or.inr ?_
          simp only [claude_get_response]
          rw [if_neg h]
          exact startsWithError_append _
        · refine Or.inr ?_
          simp only [claude_get_response]
          rw [if_neg h]
          exact startsWithError_append _
        · refine Or.inr ?_
          simp only [claude_get_response]
          rw [if_neg h]
          exact startsWithError_append _
        · refine Or.inl ⟨c, ?_, ?_⟩
          · simp only [chatExtract]
            rw [if_neg h]
          · simp only [claude_get_response]
            rw [if_neg h]
  · intro ag m ctx env
    rcases env with d | d | ⟨s, sd, body⟩
    · exact Or.inr (startsWithError_append _)
    · exact Or.inr (startsWithError_append _)
    · by_cases h : 400 ≤ s ∧ s < 600
      · refine Or.inr ?_
        simp only [groq_get_response]
        rw [if_pos h]
        exact startsWithError_append _
      · rcases body with e | (_ | (_ | ⟨c, cs⟩))
        · refine Or.inr ?_
          simp only [groq_get_response]
          rw [if_neg h]
          exact startsWithError_append _
        · refine Or.inr ?_
          simp only [groq_get_response]
          rw [if_neg h]
          exact startsWithError_append _
        · refine Or.inr ?_
          simp only [groq_get_response]
          rw [if_neg h]
          exact startsWithError_append _
        · refine Or.inl ⟨c, ?_, ?_⟩
          · simp only [chatExtract]
            rw [if_neg h]
          · simp only [groq_get_response]
            rw [if_neg h]

/-- The fixed prefix every generic Ollama transport-error response
carries (`ollama_agent.py`, lines 80–83). -/
def ollamaGenericMarker : String := "Error: Error de conexión con Ollama:"

/-- **C9**: a connection-refused transport error in the Ollama client
returns the distinguished message — it contains the phrase that the
local service is not running and the remediation (`ollama serve`) — and
that message is never equal to the generic transport-error response
(which carries the `ollamaGenericMarker` prefix instead, for any
exception detail). -/
theorem c9_ollama_connection_refused (ag : Agent) (m : String)
    (ctx : List Turn) (d : String) :
    ollama_get_response ag m ctx (.connectionError d) =
      "Error: Ollama no está ejecutándose. Inicia Ollama con \x27ollama serve\x27" ∧
    "Ollama no está ejecutándose".data <:+:
      (ollama_get_response ag m ctx (.connectionError d)).data ∧
    "ollama serve".data <:+:
      (ollama_get_response ag m ctx (.connectionError d)).data ∧
    (∀ d2, ollama_get_response ag m ctx (.requestError d2) ≠
      ollama_get_response ag m ctx (.connectionError d)) := by
  refine ⟨rfl, ?_, ?_, ?_⟩
  · show "Ollama no está ejecutándose".data <:+:
      ("Error: Ollama no está ejecutándose. Inicia Ollama con \x27ollama serve\x27" : String).data
    decide
  · show "ollama serve".data <:+:
      ("Error: Ollama no está ejecutándose. Inicia Ollama con \x27ollama serve\x27" : String).data
    decide
  · intro d2 hEq
    have hg : ollama_get_response ag m ctx (.requestError d2) =
        "Error: " ++ ("Error de conexión con Ollama: " ++ d2) := rfl
    have hc : ollama_get_response ag m ctx (.connectionError d) =
        "Error: Ollama no está ejecutándose. Inicia Ollama con \x27ollama serve\x27" := rfl
    rw [hg, hc] at hEq
    have hpre : ollamaGenericMarker.data <+:
        ("Error: Ollama no está ejecutándose. Inicia Ollama con \x27ollama serve\x27" : String).data := by
      rw [← hEq]
      refine ⟨(" " ++ d2).data, ?_⟩
      rw [data_append, data_append, data_append, ← List.append_assoc,
        ← List.append_assoc]
      congr 1
    exact absurd hpre (by decide)

/-- **C9 witness**: the theorem applied at a concrete call. -/
theorem c9_ollama_connection_refused_witness :
    ollama_get_response (mkAgent ⟨some "t", some "ollama", some "llama3.1",
        none, none, none, none, []⟩) "hola" [] (.connectionError "refused") =
      "Error: Ollama no está ejecutándose. Inicia Ollama con \x27ollama serve\x27" :=
  (c9_ollama_connection_refused _ _ _ _).1

/-- `joinSep` over a list extended with two final elements splits into
the join of the front, the separator, and the two elements. -/
theorem joinSep_append_two (sep u v : String) :
    ∀ (x : String) (xs : List String),
      joinSep sep (x :: (xs ++ [u, v])) =
        joinSep sep (x :: xs) ++ sep ++ u ++ sep ++ v := by
  intro x xs
  induction xs generalizing x with
  | nil =>
    show x ++ sep ++ (u ++ sep ++ v) = x ++ sep ++ u ++ sep ++ v
    rw [← str_append_assoc (x ++ sep) (u ++ sep) v,
      ← str_append_assoc (x ++ sep) u sep]
  | cons y ys ih =>
    show x ++ sep ++ joinSep sep (y :: (ys ++ [u, v])) =
      x ++ sep ++ joinSep sep (y :: ys) ++ sep ++ u ++ sep ++ v
    rw [ih y]
    rw [← str_append_assoc (x ++ sep)
        (joinSep sep (y :: ys) ++ sep ++ u ++ sep) v,
      ← str_append_assoc (x ++ sep) (joinSep sep (y :: ys) ++ sep ++ u) sep,
      ← str_append_assoc (x ++ sep) (joinSep sep (y :: ys) ++ sep) u,
      ← str_append_assoc (x ++ sep) (joinSep sep (y :: ys)) sep]

/-- **C5 counterexample**: with the non-empty context
`[{role: "user", content: "hola"}]` and message `"que tal"`, the Ollama
prompt is built with Spanish prefixes and contains no occurrence of the
claimed `"User:"` prefix at all (nor `"Assistant:"`). -/
theorem c5_counterexample :
    ollamaBuildPrompt "que tal" [⟨"user", "hola"⟩] =
      "Usuario: hola\nUsuario: que tal\nAsistente:" ∧
    ¬ ("User:".data <:+:
        (ollamaBuildPrompt "que tal" [⟨"user", "hola"⟩]).data) ∧
    ¬ ("Assistant:".data <:+:
        (ollamaBuildPrompt "que tal" [⟨"user", "hola"⟩]).data) := by
  refine ⟨by decide, by decide, by decide⟩

/-- **C5 (amended)**: for a non-empty context, the prompt field of the
payload the Ollama client sends is the newline-join of the context turns
— each user turn prefixed `"Usuario: "`, each other turn
`"Asistente: "` — followed by the new user message as a `"Usuario: "`
line and a trailing `"Asistente:"` cue line. -/
theorem c5_ollama_prompt_flattening (ag : Agent) (m : String)
    (ctx : List Turn) (h : ctx ≠ []) :
    (ollamaPayload ag m ctx).prompt =
      joinSep "\n" (ctx.map ollamaTurnLine ++ ["Usuario: " ++ m, "Asistente:"]) := by
  match ctx, h with
  | t :: rest, _ =>
    show ollamaBuildPrompt m (t :: rest) = _
    rw [List.map_cons, List.cons_append, joinSep_append_two]
    show joinSep "\n" (ollamaTurnLine t :: rest.map ollamaTurnLine) ++
        "\nUsuario: " ++ m ++ "\nAsistente:" =
      joinSep "\n" (ollamaTurnLine t :: rest.map ollamaTurnLine) ++ "\n" ++
        ("Usuario: " ++ m) ++ "\n" ++ "Asistente:"
    rw [show ("\nUsuario: " : String) = "\n" ++ "Usuario: " from by decide,
      show ("\nAsistente:" : String) = "\n" ++ "Asistente:" from by decide]
    rw [← str_append_assoc (joinSep "\n" (ollamaTurnLine t :: rest.map ollamaTurnLine))
        "\n" "Usuario: ",
      str_append_assoc (joinSep "\n" (ollamaTurnLine t :: rest.map ollamaTurnLine) ++ "\n")
        "Usuario: " m,
      ← str_append_assoc (joinSep "\n" (ollamaTurnLine t :: rest.map ollamaTurnLine) ++ "\n" ++
        ("Usuario: " ++ m)) "\n" "Asistente:"]

/-- **C5 witness**: the amended flattening theorem evaluated at the
counterexample input. -/
theorem c5_ollama_prompt_flattening_witness :
    (ollamaPayload (mkAgent ⟨some "t", some "ollama", some "llama3.1",
        none, none, none, none, []⟩) "que tal" [⟨"user", "hola"⟩]).prompt =
      joinSep "\n" ([⟨"user", "hola"⟩].map ollamaTurnLine ++
        ["Usuario: " ++ "que tal", "Asistente:"]) :=
  c5_ollama_prompt_flattening _ _ _ (by decide)

/-- C10, spec side: the wire messages as the claim words them — the
context filtered to the user/assistant role enum (order and content
preserved), then the new user message. -/
def claudeMessagesSpec (message : String) (ctx : List Turn) : List Turn :=
  (ctx.filterMap fun t =>
    if t.role = "user" ∨ t.role = "assistant"
    then some ⟨t.role, t.content⟩ else none)
  ++ [⟨"user", message⟩]

theorem claudeFold_eq_filterMap (ctx : List Turn) (acc : List Turn) :
    ctx.foldl (fun acc t =>
      if t.role = "user" then acc ++ [⟨"user", t.content⟩]
      else if t.role = "assistant" then acc ++ [⟨"assistant", t.content⟩]
      else acc) acc =
    acc ++ (ctx.filterMap fun t =>
      if t.role = "user" ∨ t.role = "assistant"
      then some ⟨t.role, t.content⟩ else none) := by
  induction ctx generalizing acc with
  | nil => simp
  | cons t rest ih =>
    by_cases h1 : t.role = "user"
    · simp [List.foldl_cons, List.filterMap_cons, h1, ih]
    · by_cases h2 : t.role = "assistant"
      · simp [List.foldl_cons, List.filterMap_cons, h1, h2, ih]
      · simp [List.foldl_cons, List.filterMap_cons, h1, h2, ih]

/-- **C10**: the Claude client's wire message list forwards exactly the
context turns whose role is `"user"` or `"assistant"`, in their original
order and with their content verbatim, silently omits every other role,
and appends the new user message. -/
theorem c10_claude_context_role_filter (m : String) (ctx : List Turn) :
    claudeBuildMessages m ctx = claudeMessagesSpec m ctx := by
  unfold claudeBuildMessages claudeMessagesSpec
  rw [claudeFold_eq_filterMap ctx []]
  rw [List.nil_append]

/-- Rate table of `OpenAIAgent.estimate_cost` (`openai_agent.py`,
lines 153–160): `{input, output}` USD per 1K tokens; the dict `.get`
falls back to the `gpt-4o-mini` entry. -/
def openaiRates (model : String) : ℚ × ℚ :=
  if model = "gpt-4o" then (0.005, 0.015)
  else if model = "gpt-4o-mini" then (0.00015, 0.0006)
  else if model = "gpt-4-turbo" then (0.01, 0.03)
  else if model = "gpt-3.5-turbo" then (0.0005, 0.0015)
  else (0.00015, 0.0006)

/-- Rate table of `ClaudeAgent.estimate_cost` (`claude_agent.py`,
lines 154–159), falling back to `claude-3-5-sonnet-20241022`. -/
def claudeRates (model : String) : ℚ × ℚ :=
  if model = "claude-3-5-sonnet-20241022" then (0.003, 0.015)
  else if model = "claude-3-opus-20240229" then (0.015, 0.075)
  else if model = "claude-3-sonnet-20240229" then (0.003, 0.015)
  else if model = "claude-3-haiku-20240307" then (0.00025, 0.00125)
  else (0.003, 0.015)

/-- Rate table of `GeminiAgent.estimate_cost` (`gemini_agent.py`,
lines 181–185), falling back to `gemini-1.5-flash`. -/
def geminiRates (model : String) : ℚ × ℚ :=
  if model = "gemini-1.5-pro" then (0.0035, 0.0105)
  else if model = "gemini-1.5-flash" then (0.000075, 0.0003)
  else if model = "gemini-pro" then (0.0005, 0.0015)
  else (0.000075, 0.0003)

/-- Rate table of `GroqAgent.estimate_cost` (`groq_agent.py`,
lines 163–168), falling back to `llama-3.1-70b-versatile`. -/
def groqRates (model : String) : ℚ × ℚ :=
  if model = "llama-3.1-70b-versatile" then (0.00059, 0.00079)
  else if model = "llama-3.1-8b-instant" then (0.00005, 0.00008)
  else if model = "mixtral-8x7b-32768" then (0.00024, 0.00024)
  else if model = "gemma-7b-it" then (0.00007, 0.00007)
  else (0.00059, 0.00079)

/-- `OpenAIAgent.estimate_cost` (`openai_agent.py`, lines 140–165):
tokens estimated as `len(text) // 4`, cost as
`tokens / 1000 * rate` per direction. -/
def openai_estimate_cost (model message response : String) : ℚ :=
  let input_tokens := message.length / 4
  let output_tokens := response.length / 4
  let model_costs := openaiRates model
  (input_tokens : ℚ) / 1000 * model_costs.1 +
    (output_tokens : ℚ) / 1000 * model_costs.2

/-- `ClaudeAgent.estimate_cost` (`claude_agent.py`, lines 141–166). -/
def claude_estimate_cost (model message response : String) : ℚ :=
  let input_tokens := message.length / 4
  let output_tokens := response.length / 4
  let model_costs := claudeRates model
  (input_tokens : ℚ) / 1000 * model_costs.1 +
    (output_tokens : ℚ) / 1000 * model_costs.2

/-- `GeminiAgent.estimate_cost` (`gemini_agent.py`, lines 168–192). -/
def gemini_estimate_cost (model message response : String) : ℚ :=
  let input_tokens := message.length / 4
  let output_tokens := response.length / 4
  let model_costs := geminiRates model
  (input_tokens : ℚ) / 1000 * model_costs.1 +
    (output_tokens : ℚ) / 1000 * model_costs.2

/-- `GroqAgent.estimate_cost` (`groq_agent.py`, lines 150–175). -/
def groq_estimate_cost (model message response : String) : ℚ :=
  let input_tokens := message.length / 4
  let output_tokens := response.length / 4
  let model_costs := groqRates model
  (input_tokens : ℚ) / 1000 * model_costs.1 +
    (output_tokens : ℚ) / 1000 * model_costs.2

/-- `OllamaAgent.estimate_cost` (`ollama_agent.py`, lines 191–195):
local inference is free. -/
def ollama_estimate_cost (_message _response : String) : ℚ := 0.0

theorem openaiRates_nonneg (model : String) :
    0 ≤ (openaiRates model).1 ∧ 0 ≤ (openaiRates model).2 := by
  unfold openaiRates
  split_ifs <;> constructor <;> norm_num

theorem claudeRates_nonneg (model : String) :
    0 ≤ (claudeRates model).1 ∧ 0 ≤ (claudeRates model).2 := by
  unfold claudeRates
  split_ifs <;> constructor <;> norm_num

theorem geminiRates_nonneg (model : String) :
    0 ≤ (geminiRates model).1 ∧ 0 ≤ (geminiRates model).2 := by
  unfold geminiRates
  split_ifs <;> constructor <;> norm_num

theorem groqRates_nonneg (model : String) :
    0 ≤ (groqRates model).1 ∧ 0 ≤ (groqRates model).2 := by
  unfold groqRates
  split_ifs <;> constructor <;> norm_num

theorem rateCost_nonneg (it ot : Nat) (ri ro : ℚ) (hi : 0 ≤ ri)
    (ho : 0 ≤ ro) : 0 ≤ (it : ℚ) / 1000 * ri + (ot : ℚ) / 1000 * ro :=
  add_nonneg (mul_nonneg (by positivity) hi) (mul_nonneg (by positivity) ho)

theorem rateCost_mono (it1 it2 ot1 ot2 : Nat) (ri ro : ℚ) (hi : 0 ≤ ri)
    (ho : 0 ≤ ro) (h1 : it1 ≤ it2) (h2 : ot1 ≤ ot2) :
    (it1 : ℚ) / 1000 * ri + (ot1 : ℚ) / 1000 * ro ≤
      (it2 : ℚ) / 1000 * ri + (ot2 : ℚ) / 1000 * ro := by
  have c1 : (it1 : ℚ) ≤ (it2 : ℚ) := by exact_mod_cast h1
  have c2 : (ot1 : ℚ) ≤ (ot2 : ℚ) := by exact_mod_cast h2
  gcongr

/-- **C4 counterexample**: for the fixed model `gpt-4o` the pair
`("12345678", "")` has combined length 8, strictly more than the pair
`("", "1234")` of combined length 4, yet its estimated cost is strictly
smaller (input tokens are billed at 0.005/1K, output at 0.015/1K), so
cost does not scale monotonically with `len(message)+len(response)`. -/
theorem c4_counterexample :
    "12345678".length + "".length > "".length + "1234".length ∧
    openai_estimate_cost "gpt-4o" "12345678" "" <
      openai_estimate_cost "gpt-4o" "" "1234" := by
  constructor
  · decide
  · show (2 : ℚ) / 1000 * 0.005 + (0 : ℚ) / 1000 * 0.015 <
      (0 : ℚ) / 1000 * 0.005 + (1 : ℚ) / 1000 * 0.015
    norm_num

/-- **C4 (amended)**: every provider's `estimate_cost` is non-negative
for every model; the local (Ollama) client's cost is exactly `0.0`; and
for a fixed model each hosted provider's cost is monotone coordinatewise
— it never decreases when neither `len(message)` nor `len(response)`
decreases. (Monotonicity in the combined length `len(message) +
len(response)` alone fails; see the counterexample.) -/
theorem c4_estimate_cost_amended :
    (∀ model m r, 0 ≤ openai_estimate_cost model m r) ∧
    (∀ model m r, 0 ≤ claude_estimate_cost model m r) ∧
    (∀ model m r, 0 ≤ gemini_estimate_cost model m r) ∧
    (∀ model m r, 0 ≤ groq_estimate_cost model m r) ∧
    (∀ m r, ollama_estimate_cost m r = 0) ∧
    (∀ model m1 r1 m2 r2, m1.length ≤ m2.length → r1.length ≤ r2.length →
      openai_estimate_cost model m1 r1 ≤ openai_estimate_cost model m2 r2) ∧
    (∀ model m1 r1 m2 r2, m1.length ≤ m2.length → r1.length ≤ r2.length →
      claude_estimate_cost model m1 r1 ≤ claude_estimate_cost model m2 r2) ∧
    (∀ model m1 r1 m2 r2, m1.length ≤ m2.length → r1.length ≤ r2.length →
      gemini_estimate_cost model m1 r1 ≤ gemini_estimate_cost model m2 r2) ∧
    (∀ model m1 r1 m2 r2, m1.length ≤ m2.length → r1.length ≤ r2.length →
      groq_estimate_cost model m1 r1 ≤ groq_estimate_cost model m2 r2) := by
  refine ⟨?_, ?_, ?_, ?_, fun m r => by norm_num [ollama_estimate_cost], ?_, ?_, ?_, ?_⟩
  · intro model m r
    exact rateCost_nonneg _ _ _ _ (openaiRates_nonneg model).1
      (openaiRates_nonneg model).2
  · intro model m r
    exact rateCost_nonneg _ _ _ _ (claudeRates_nonneg model).1
      (claudeRates_nonneg model).2
  · intro model m r
    exact rateCost_nonneg _ _ _ _ (geminiRates_nonneg model).1
      (geminiRates_nonneg model).2
  · intro model m r
    exact rateCost_nonneg _ _ _ _ (groqRates_nonneg model).1
      (groqRates_nonneg model).2
  · intro model m1 r1 m2 r2 h1 h2
    exact rateCost_mono _ _ _ _ _ _ (openaiRates_nonneg model).1
      (openaiRates_nonneg model).2 (Nat.div_le_div_right h1)
      (Nat.div_le_div_right h2)
  · intro model m1 r1 m2 r2 h1 h2
    exact rateCost_mono _ _ _ _ _ _ (claudeRates_nonneg model).1
      (claudeRates_nonneg model).2 (Nat.div_le_div_right h1)
      (Nat.div_le_div_right h2)
  · intro model m1 r1 m2 r2 h1 h2
    exact rateCost_mono _ _ _ _ _ _ (geminiRates_nonneg model).1
      (geminiRates_nonneg model).2 (Nat.div_le_div_right h1)
      (Nat.div_le_div_right h2)
  · intro model m1 r1 m2 r2 h1 h2
    exact rateCost_mono _ _ _ _ _ _ (groqRates_nonneg model).1
      (groqRates_nonneg model).2 (Nat.div_le_div_right h1)
      (Nat.div_le_div_right h2)

/-- **C4 witness**: the coordinatewise monotonicity applied at concrete
inputs. -/
theorem c4_estimate_cost_amended_witness :
    openai_estimate_cost "gpt-4o" "ab" "c" ≤
      openai_estimate_cost "gpt-4o" "abcd" "cdef" :=
  (c4_estimate_cost_amended.2.2.2.2.2.1) "gpt-4o" "ab" "c" "abcd" "cdef"
    (by decide) (by decide)

/-- Python `provider.lower()`; the provider identifiers are ASCII, for
which a character-wise lowering is exact. (`String.toLower` itself is
defined by well-founded recursion and does not kernel-reduce.) -/
def strLower (s : String) : String := ⟨s.data.map Char.toLower⟩

/-- The provider classes registered in `AgentFactory.AGENT_CLASSES`
(`agent_factory.py`, lines 20–26); lookup is on `provider.lower()`. -/
inductive ProviderClass where
  | openai
  | anthropic
  | google
  | ollama
  | groq
deriving DecidableEq

def agentClassFor (provider : String) : Option ProviderClass :=
  if strLower provider = "openai" then some .openai
  else if strLower provider = "anthropic" then some .anthropic
  else if strLower provider = "google" then some .google
  else if strLower provider = "ollama" then some .ollama
  else if strLower provider = "groq" then some .groq
  else none

/-- Providers whose `provider_requirements` entry lists `api_key`
(`agent_factory.py`, lines 79–85): every registered provider except
`ollama`. -/
def providerNeedsKey (provider : String) : Bool :=
  strLower provider == "openai" || strLower provider == "anthropic" ||
  strLower provider == "google" || strLower provider == "groq"

/-- `AgentFactory._validate_config` (`agent_factory.py`, lines 71–101):
`name` and `model_name` always required; `api_key` required only when
`validate_api_key` holds and the provider demands one. -/
def factory_validate_config (provider : String) (cfg : AgentConfig)
    (validate_api_key : Bool) : Bool :=
  truthy cfg.name && truthy cfg.model_name &&
  (!validate_api_key || !providerNeedsKey provider || truthy cfg.api_key)

/-- `AgentFactory.create_agent` (`agent_factory.py`, lines 28–69):
unknown provider → `None`; failed basic validation → `None` when
`validate_api_key` else proceed degraded; after construction the
client's own `validate_config` is re-checked when `validate_api_key`. -/
def create_agent (provider : String) (cfg : AgentConfig)
    (validate_api_key : Bool) : Option (ProviderClass × Agent) :=
  match agentClassFor provider with
  | none => none
  | some cls =>
    if !factory_validate_config provider cfg validate_api_key &&
        validate_api_key then none
    else
      let agent := mkAgent cfg
      if validate_api_key && !validate_config agent then none
      else some (cls, agent)

/-- **C3**: for every supported provider other than the local `ollama`,
`create_agent` with `validate_api_key = True` and a missing or empty
`api_key` returns `None` — never an exception, never a client. -/
theorem c3_create_agent_missing_key (provider : String) (cfg : AgentConfig)
    (hsup : (agentClassFor provider).isSome = true)
    (hloc : strLower provider ≠ "ollama")
    (hkey : truthy cfg.api_key = false) :
    create_agent provider cfg true = none := by
  unfold create_agent agentClassFor
  unfold agentClassFor at hsup
  by_cases h1 : strLower provider = "openai"
  · simp [h1, factory_validate_config, providerNeedsKey, hkey]
  · by_cases h2 : strLower provider = "anthropic"
    · simp [h1, h2, factory_validate_config, providerNeedsKey, hkey]
    · by_cases h3 : strLower provider = "google"
      · simp [h1, h2, h3, factory_validate_config, providerNeedsKey, hkey]
      · by_cases h4 : strLower provider = "ollama"
        · exact absurd h4 hloc
        · by_cases h5 : strLower provider = "groq"
          · simp [h1, h2, h3, h4, h5, factory_validate_config,
              providerNeedsKey, hkey]
          · simp [h1, h2, h3, h4, h5] at hsup

/-- **C3 witness**: hosted provider `anthropic` (Scenario 3 of the spec)
with no `api_key` yields `None`. -/
theorem c3_create_agent_missing_key_witness :
    create_agent "anthropic" ⟨some "t", some "anthropic",
      some "claude-3-haiku-20240307", none, none, none, none, []⟩ true =
      none :=
  c3_create_agent_missing_key _ _ (by decide) (by decide) rfl

/-- C2, spec side: the validity condition as the spec words it — the
three identity fields non-empty, and an API key present unless the
provider is the local one. -/
def SpecValid (cfg : AgentConfig) : Prop :=
  truthy cfg.name = true ∧ truthy cfg.provider = true ∧
  truthy cfg.model_name = true ∧
  (truthy cfg.api_key = true ∨ cfg.provider = some "ollama")

/-- **C2**: for every provider client (all share `BaseAgent.validate_config`),
`validate_config()` returns true iff `name`, `provider` and `model_name`
are all non-empty and (`api_key` is non-empty or the provider is
`'ollama'`). -/
theorem c2_validate_config_iff (cfg : AgentConfig) :
    validate_config (mkAgent cfg) = true ↔ SpecValid cfg := by
  unfold validate_config mkAgent SpecValid truthy
  cases hn : cfg.name <;> cases hp : cfg.provider <;>
    cases hm : cfg.model_name <;> cases hk : cfg.api_key <;>
    simp_all [Option.getD] <;>
    constructor <;> intro h <;> simp_all <;> tauto

/-- **C2 witness**: concrete evaluation of the equivalence. -/
theorem c2_validate_config_iff_witness :
    validate_config (mkAgent ⟨some "t", some "ollama", some "llama3.1",
      none, none, none, none, []⟩) = true :=
  (c2_validate_config_iff _).mpr ⟨rfl, rfl, rfl, Or.inr rfl⟩

/-- **C7**: two clients constructed from the same config produce
identical `get_info()` output — `get_info` is a deterministic function
of the config alone (no network call), fully determined field by field. -/
theorem c7_get_info_deterministic (cfg : AgentConfig) (a b : Agent)
    (ha : a = mkAgent cfg) (hb : b = mkAgent cfg) :
    get_info a = get_info b ∧
    get_info a = { name := cfg.name.getD "Agente Desconocido"
                   provider := cfg.provider.getD ""
                   model_name := cfg.model_name.getD ""
                   max_tokens := cfg.max_tokens.getD 2048
                   temperature := cfg.temperature.getD (7/10)
                   status := if validate_config (mkAgent cfg)
                             then "configured" else "error" } := by
  subst ha hb
  exact ⟨rfl, rfl⟩

/-- **C7 witness**: the determinism theorem applied at a concrete config. -/
theorem c7_get_info_deterministic_witness :
    get_info (mkAgent ⟨some "t", some "openai", some "gpt-4o-mini",
      some "x", none, none, none, []⟩) =
    get_info (mkAgent ⟨some "t", some "openai", some "gpt-4o-mini",
      some "x", none, none, none, []⟩) :=
  (c7_get_info_deterministic _ _ _ rfl rfl).1

/-- Python string comparison (code-point lexicographic `<=`), used by
`sorted(...)` in the model-listing methods. -/
def charListLe : List Char → List Char → Bool
  | [], _ => true
  | _ :: _, [] => false
  | c :: cs, d :: ds =>
    if c < d then true else if d < c then false else charListLe cs ds

def insertSorted (x : String) : List String → List String
  | [] => [x]
  | y :: ys =>
    if charListLe x.data y.data then x :: y :: ys else y :: insertSorted x ys

/-- Python `sorted(...)` over strings (an insertion sort; ties are
identical strings, so any comparison sort is extensionally the same). -/
def sortStrings : List String → List String
  | [] => []
  | x :: xs => insertSorted x (sortStrings xs)

/-- Python `needle in hay` substring test. -/
def strContains (hay needle : String) : Bool :=
  decide (needle.data <:+: hay.data)

/-- Environment of one models-listing call: an exception anywhere inside
the `try` block (transport error, malformed JSON, missing entry fields),
or a reply with an HTTP status and the projected body. -/
inductive ModelsEnv (β : Type) where
  | exn (detail : String)
  | reply (status : Nat) (body : β)

/-- Failure of the network call as the claim words it: an exception or a
non-200 status. -/
def modelsCallFails {β : Type} : ModelsEnv β → Prop
  | .exn _ => True
  | .reply status _ => status ≠ 200

/-- `OpenAIAgent.get_available_models` (`openai_agent.py`,
lines 115–138): on a 200 reply with a `data` field, the ids containing
`gpt-4` or `gpt-3.5` are returned sorted; otherwise the fixed fallback
list. -/
def openai_get_available_models
    (env : ModelsEnv (Option (List String))) : List String :=
  match env with
  | .exn _ => ["gpt-4o", "gpt-4o-mini", "gpt-4-turbo", "gpt-3.5-turbo"]
  | .reply status body =>
    if status = 200 then
      match body with
      | some ids =>
          sortStrings (ids.filter fun m =>
            strContains m "gpt-4" || strContains m "gpt-3.5")
      | none => ["gpt-4o", "gpt-4o-mini", "gpt-4-turbo", "gpt-3.5-turbo"]
    else ["gpt-4o", "gpt-4o-mini", "gpt-4-turbo", "gpt-3.5-turbo"]

/-- `OllamaAgent.get_available_models` (`ollama_agent.py`,
lines 139–158): on a 200 reply, the names under `models` (defaulting to
`[]` when absent) sorted; otherwise the fixed fallback list. -/
def ollama_get_available_models (env : ModelsEnv (List String)) :
    List String :=
  match env with
  | .exn _ => ["llama3.1", "codestral", "mistral", "phi3", "qwen2.5"]
  | .reply status models =>
    if status = 200 then sortStrings models
    else ["llama3.1", "codestral", "mistral", "phi3", "qwen2.5"]

/-- Python `str.replace(pat, sub)`: replace every non-overlapping
occurrence left to right. (The only pattern used here, `"models/"`, is
non-empty; an empty pattern is returned unchanged.) -/
def replaceList (pat sub : List Char) : List Char → List Char
  | [] => []
  | c :: cs =>
    if pat.isEmpty then c :: cs
    else if pat <+: c :: cs then
      sub ++ replaceList pat sub (cs.drop (pat.length - 1))
    else c :: replaceList pat sub cs
termination_by l => l.length
decreasing_by
  · simp [List.length_drop]; omega
  · simp

def strReplace (s pat sub : String) : String :=
  ⟨replaceList pat.data sub.data s.data⟩

/-- One entry of the Gemini models listing as
`GeminiAgent.get_available_models` reads it: `model.get('name', '')` and
`model.get('supportedGenerationMethods', [])`. -/
structure GeminiModelEntry where
  name : String
  supportedGenerationMethods : List String

/-- The for-loop of `GeminiAgent.get_available_models`
(`gemini_agent.py`, lines 154–159): strip the `models/` prefix from the
name and keep entries supporting `generateContent`. -/
def geminiModelsLoop : List GeminiModelEntry → List String
  | [] => []
  | e :: rest =>
    if "generateContent" ∈ e.supportedGenerationMethods then
      strReplace e.name "models/" "" :: geminiModelsLoop rest
    else geminiModelsLoop rest

/-- `GeminiAgent.get_available_models` (`gemini_agent.py`,
lines 142–166): on a 200 reply with a `models` field, the filtered,
stripped names sorted; otherwise the fixed fallback list. -/
def gemini_get_available_models
    (env : ModelsEnv (Option (List GeminiModelEntry))) : List String :=
  match env with
  | .exn _ => ["gemini-1.5-pro", "gemini-1.5-flash", "gemini-pro"]
  | .reply status body =>
    if status = 200 then
      match body with
      | some entries => sortStrings (geminiModelsLoop entries)
      | none => ["gemini-1.5-pro", "gemini-1.5-flash", "gemini-pro"]
    else ["gemini-1.5-pro", "gemini-1.5-flash", "gemini-pro"]

/-- `GroqAgent.get_available_models` (`groq_agent.py`, lines 116–148):
on a 200 reply with a `data` field, the ids sorted (no family filter);
otherwise the fixed fallback list. -/
def groq_get_available_models
    (env : ModelsEnv (Option (List String))) : List String :=
  match env with
  | .exn _ =>
      ["llama-3.1-70b-versatile", "llama-3.1-8b-instant",
       "mixtral-8x7b-32768", "gemma-7b-it"]
  | .reply status body =>
    if status = 200 then
      match body with
      | some ids => sortStrings ids
      | none =>
          ["llama-3.1-70b-versatile", "llama-3.1-8b-instant",
           "mixtral-8x7b-32768", "gemma-7b-it"]
    else
      ["llama-3.1-70b-versatile", "llama-3.1-8b-instant",
       "mixtral-8x7b-32768", "gemma-7b-it"]

/-- `ClaudeAgent.get_available_models` (`claude_agent.py`,
lines 129–139): no listing endpoint — a fixed known-model list, no
network call at all. -/
def claude_get_available_models : List String :=
  ["claude-3-5-sonnet-20241022", "claude-3-opus-20240229",
   "claude-3-sonnet-20240229", "claude-3-haiku-20240307"]

/-- **C6 counterexample**: `get_available_models` is *not* non-empty on
every input — a successful (status 200) reply reporting no installed
models makes the Ollama client return `[]`, and a 200 OpenAI reply whose
ids contain no chat-family marker filters down to `[]`. -/
theorem c6_counterexample :
    ollama_get_available_models (.reply 200 []) = [] ∧
    openai_get_available_models (.reply 200 (some ["whisper-1"])) = [] := by
  constructor
  · rfl
  · decide

/-- **C6 (amended)**: for every provider client, whenever the network
call fails (an exception or a non-200 status), `get_available_models`
returns its fixed, non-empty fallback list and never raises; the Claude
client has no listing call and always returns its fixed non-empty list.
(On a successful 200 reply the parsed, filtered list is returned and may
be empty.) -/
theorem c6_get_available_models_fallback :
    (∀ env, modelsCallFails env → openai_get_available_models env =
      ["gpt-4o", "gpt-4o-mini", "gpt-4-turbo", "gpt-3.5-turbo"]) ∧
    (["gpt-4o", "gpt-4o-mini", "gpt-4-turbo", "gpt-3.5-turbo"] ≠
      ([] : List String)) ∧
    (∀ env, modelsCallFails env → ollama_get_available_models env =
      ["llama3.1", "codestral", "mistral", "phi3", "qwen2.5"]) ∧
    (["llama3.1", "codestral", "mistral", "phi3", "qwen2.5"] ≠
      ([] : List String)) ∧
    (∀ env, modelsCallFails env → gemini_get_available_models env =
      ["gemini-1.5-pro", "gemini-1.5-flash", "gemini-pro"]) ∧
    (["gemini-1.5-pro", "gemini-1.5-flash", "gemini-pro"] ≠
      ([] : List String)) ∧
    (∀ env, modelsCallFails env → groq_get_available_models env =
      ["llama-3.1-70b-versatile", "llama-3.1-8b-instant",
       "mixtral-8x7b-32768", "gemma-7b-it"]) ∧
    (["llama-3.1-70b-versatile", "llama-3.1-8b-instant",
      "mixtral-8x7b-32768", "gemma-7b-it"] ≠ ([] : List String)) ∧
    (claude_get_available_models =
      ["claude-3-5-sonnet-20241022", "claude-3-opus-20240229",
       "claude-3-sonnet-20240229", "claude-3-haiku-20240307"]) ∧
    (claude_get_available_models ≠ []) := by
  refine ⟨?_, by decide, ?_, by decide, ?_, by decide, ?_, by decide,
    rfl, by decide⟩
  · intro env h
    cases env with
    | exn d => rfl
    | reply status body =>
      have hs : status ≠ 200 := h
      simp only [openai_get_available_models]
      rw [if_neg hs]
  · intro env h
    cases env with
    | exn d => rfl
    | reply status body =>
      have hs : status ≠ 200 := h
      simp only [ollama_get_available_models]
      rw [if_neg hs]
  · intro env h
    cases env with
    | exn d => rfl
    | reply status body =>
      have hs : status ≠ 200 := h
      simp only [gemini_get_available_models]
      rw [if_neg hs]
  · intro env h
    cases env with
    | exn d => rfl
    | reply status body =>
      have hs : status ≠ 200 := h
      simp only [groq_get_available_models]
      rw [if_neg hs]

/-- **C6 witness**: the fallback behaviour evaluated on a concrete
failing call (status 500). -/
theorem c6_get_available_models_fallback_witness :
    ollama_get_available_models (.reply 500 ["llama3.1"]) =
      ["llama3.1", "codestral", "mistral", "phi3", "qwen2.5"] :=
  c6_get_available_models_fallback.2.2.1 (.reply 500 ["llama3.1"])
    (show (500 : Nat) ≠ 200 by decide)

/-- The `AgentManager` state (`agent_factory.py`, lines 169–171): the
insertion-ordered dict of active agents and the optional default id. -/
structure AgentManager where
  active_agents : List (String × Agent)
  default_agent : Option String

/-- Python dict lookup over the insertion-ordered association list. -/
def lookupAssoc (id : String) : List (String × Agent) → Option Agent
  | [] => none
  | (k, v) :: rest => if k = id then some v else lookupAssoc id rest

/-- Python dict assignment: replace in place, or append a new binding. -/
def insertAssoc (id : String) (a : Agent) :
    List (String × Agent) → List (String × Agent)
  | [] => [(id, a)]
  | (k, v) :: rest =>
    if k = id then (id, a) :: rest else (k, v) :: insertAssoc id a rest

/-- `AgentManager.add_agent` (`agent_factory.py`, lines 173–178). -/
def add_agent (st : AgentManager) (id : String) (a : Agent) : AgentManager :=
  { st with active_agents := insertAssoc id a st.active_agents }

/-- `AgentManager.get_agent` (`agent_factory.py`, lines 180–184). -/
def get_agent (st : AgentManager) (id : String) : Option Agent :=
  lookupAssoc id st.active_agents

/-- `AgentManager.remove_agent` (`agent_factory.py`, lines 186–192):
`del` of the binding when present. -/
def remove_agent (st : AgentManager) (id : String) : AgentManager :=
  { st with active_agents := st.active_agents.filter fun p => p.1 != id }

/-- `AgentManager.set_default_agent` (`agent_factory.py`,
lines 194–200): only takes effect when the id is registered. -/
def set_default_agent (st : AgentManager) (id : String) : AgentManager :=
  if (lookupAssoc id st.active_agents).isSome then
    { st with default_agent := some id }
  else st

/-- `AgentManager.get_default_agent` (`agent_factory.py`,
lines 202–208): the stored id must be truthy (non-empty) and currently
registered, else `None`. -/
def get_default_agent (st : AgentManager) : Option Agent :=
  match st.default_agent with
  | none => none
  | some id =>
    if id.isEmpty then none else lookupAssoc id st.active_agents

/-- `AgentManager.clear_agents` (`agent_factory.py`, lines 219–225). -/
def clear_agents (_st : AgentManager) : AgentManager :=
  { active_agents := [], default_agent := none }

/-- The mutating operations of the manager. -/
inductive MgrOp where
  | add (id : String) (a : Agent)
  | remove (id : String)
  | setDefault (id : String)
  | clear

def applyOp (st : AgentManager) : MgrOp → AgentManager
  | .add id a => add_agent st id a
  | .remove id => remove_agent st id
  | .setDefault id => set_default_agent st id
  | .clear => clear_agents st

/-- A manager produced by a sequence of operations from the freshly
constructed state (`AgentManager.__init__`). -/
def runOps (ops : List MgrOp) : AgentManager :=
  ops.foldl applyOp { active_agents := [], default_agent := none }

theorem lookupAssoc_filter_self (id : String) (l : List (String × Agent)) :
    lookupAssoc id (l.filter fun p => p.1 != id) = none := by
  induction l with
  | nil => rfl
  | cons p rest ih =>
    by_cases h : p.1 = id
    · simp [List.filter_cons, h, ih]
    · simp [List.filter_cons, h, lookupAssoc, ih]

/-- **C8**: after any sequence of manager operations, `get_default_agent`
returns `None` or an instance currently registered; `set_default_agent`
on an unregistered id leaves the state (hence the default) unchanged;
and removing the current default makes `get_default_agent` return
`None`. -/
theorem c8_manager_default_invariant (ops : List MgrOp) :
    (∀ a, get_default_agent (runOps ops) = some a →
      ∃ id, lookupAssoc id (runOps ops).active_agents = some a) ∧
    (∀ id, lookupAssoc id (runOps ops).active_agents = none →
      set_default_agent (runOps ops) id = runOps ops) ∧
    (∀ id, (runOps ops).default_agent = some id →
      get_default_agent (remove_agent (runOps ops) id) = none) := by
  refine ⟨?_, ?_, ?_⟩
  · intro a h
    unfold get_default_agent at h
    split at h
    · exact absurd h (by simp)
    · split at h
      · exact absurd h (by simp)
      · exact ⟨_, h⟩
  · intro id h
    unfold set_default_agent
    rw [h]
    rfl
  · intro id h
    unfold get_default_agent remove_agent
    simp only [h]
    by_cases he : id.isEmpty
    · rw [if_pos he]
    · rw [if_neg he]
      exact lookupAssoc_filter_self id _

/-- **C8 witness**: the invariant applied to a concrete operation
sequence — setting an unregistered id as default leaves the manager
unchanged — with the hypothesis discharged by evaluation. -/
theorem c8_manager_default_invariant_witness :
    set_default_agent (runOps [.add "x" (mkAgent ⟨some "t", some "ollama",
      some "llama3.1", none, none, none, none, []⟩)]) "y" =
    runOps [.add "x" (mkAgent ⟨some "t", some "ollama", some "llama3.1",
      none, none, none, none, []⟩)] :=
  (c8_manager_default_invariant _).2.1 "y" (by decide)
